import Mathlib

/-!
Verification of the trending-video aggregation pipeline in `src/app.py`
(youtube-trending-dashboard).  The Python source is shallowly embedded:
pure helpers become Lean functions on `Nat` / `Int` / `String`, raw JSON
payloads become structures with `Option` fields (`none` = absent key),
and code that can raise becomes `Except String`.
-/

namespace TrendingDashboard

/-! ## Duration codec (src/app.py lines 28-58) -/

/-- Maximal run of ASCII digits at the head of a character list, with the
remainder.  Models the regex fragment `(\d+)`. -/
def takeDigits : List Char → List Char × List Char
  | [] => ([], [])
  | c :: cs =>
    if c.isDigit then
      let p := takeDigits cs
      (c :: p.1, p.2)
    else ([], c :: cs)

/-- Numeric value of a digit run, as Python's `int` on a digit string. -/
def digitsVal (ds : List Char) : Nat :=
  ds.foldl (fun a c => a * 10 + (c.toNat - 48)) 0

/-- One optional unit group `(?:(\d+)X)?` of the duration regex: if the
input starts with a digit run immediately followed by the unit letter `u`,
consume it and return its value, otherwise consume nothing and return 0
(the group is optional; `int(m.group(i) or 0)`). -/
def takeUnit (cs : List Char) (u : Char) : Nat × List Char :=
  let p := takeDigits cs
  match p.1, p.2 with
  | [], _ => (0, cs)
  | _ :: _, c :: rest => if c = u then (digitsVal p.1, rest) else (0, cs)
  | _ :: _, [] => (0, cs)

/-- Body of the regex `PT(?:(\d+)H)?(?:(\d+)M)?(?:(\d+)S)?` after the
literal `PT`: three sequential optional unit groups, combined as
`hours * 3600 + minutes * 60 + seconds` (src/app.py lines 32-39). -/
def parseHMS (cs : List Char) : Nat :=
  let h := takeUnit cs 'H'
  let m := takeUnit h.2 'M'
  let s := takeUnit m.2 'S'
  h.1 * 3600 + m.1 * 60 + s.1

/-- Model of `parse_iso8601_duration` (src/app.py lines 28-39).  Input that is empty
or does not start with the characters `P`,`T` returns 0; otherwise the
three optional unit groups are read.  (`duration.startswith("PT")` is
exactly "the character list begins `'P' :: 'T' :: _`".) -/
def parse_iso8601_duration (duration : String) : Nat :=
  match duration.data with
  | 'P' :: 'T' :: rest => parseHMS rest
  | _ => 0

/-- Python `f"{n:02d}"`: left-pad with `0` to width 2.  Only values in
`[0, 9]` gain a pad digit (a negative value already prints at width ≥ 2). -/
def pad2 (n : Int) : String :=
  if 0 ≤ n ∧ n < 10 then "0" ++ toString n else toString n

/-- Model of `format_duration` (src/app.py lines 42-50).  Python's `//` and `%` on
a positive divisor are Euclidean division and remainder. -/
def format_duration (seconds : Int) : String :=
  if 3600 ≤ seconds then
    toString (seconds / 3600) ++ ":" ++ pad2 (seconds % 3600 / 60)
      ++ ":" ++ pad2 (seconds % 60)
  else
    toString (seconds / 60) ++ ":" ++ pad2 (seconds % 60)

/-! ## View-count formatter (src/app.py lines 53-58) -/

/-- One-decimal rounding of the quotient `n / d`, returned in tenths.
Python renders `n/d` with `f"{...:.1f}"`; that float formatting is
modelled as exact decimal rounding, half to even, which agrees with the
float path on every value exercised here. -/
def roundHalfEvenTenths (n d : Int) : Int :=
  if 2 * (10 * n % d) < d then 10 * n / d
  else if d < 2 * (10 * n % d) then 10 * n / d + 1
  else if 10 * n / d % 2 = 0 then 10 * n / d
  else 10 * n / d + 1

/-- Decimal string with exactly one fraction digit, from a value in
tenths: `t = 15` renders `"1.5"`. -/
def decStr (t : Int) : String :=
  toString (t / 10) ++ "." ++ toString (t % 10)

/-- Model of `format_views` (src/app.py lines 53-58).  Note: there is no `B`
(billion) tier in the source; any `n ≥ 1_000_000` takes the `M` branch. -/
def format_views (n : Int) : String :=
  if 1000000 ≤ n then decStr (roundHalfEvenTenths n 1000000) ++ "M"
  else if 1000 ≤ n then decStr (roundHalfEvenTenths n 1000) ++ "K"
  else toString n

/-! ## Timestamps (src/app.py lines 61-63) -/

/-- Digit value of an ASCII digit character. -/
def dval (c : Char) : Int := (c.toNat : Int) - 48

/-- Days since 1970-01-01 of a Gregorian civil date (the standard
era/year-of-era computation used by calendar libraries). -/
def daysFromCivil (y m d : Int) : Int :=
  let y' := if m ≤ 2 then y - 1 else y
  let era := y' / 400
  let yoe := y' - era * 400
  let mp := (m + 9) % 12
  let doy := (153 * mp + 2) / 5 + d - 1
  let doe := yoe * 365 + yoe / 4 - yoe / 100 + doy
  era * 146097 + doe - 719468

/-- Number of days in a month of the proleptic Gregorian calendar used
by Python's `datetime`, with its leap-year rule (divisible by 4, except
centuries unless divisible by 400). -/
def daysInMonth (y m : Int) : Int :=
  if m = 2 then
    if y % 4 = 0 ∧ (y % 100 ≠ 0 ∨ y % 400 = 0) then 29 else 28
  else if m = 4 ∨ m = 6 ∨ m = 9 ∨ m = 11 then 30
  else 31

/-- Model of `ts.replace("Z", "+00:00")` on the character list: every `'Z'` is
replaced by the five characters `+00:00`. -/
def replaceZ : List Char → List Char
  | [] => []
  | 'Z' :: rest => '+' :: '0' :: '0' :: ':' :: '0' :: '0' :: replaceZ rest
  | c :: rest => c :: replaceZ rest

/-- Model of Python's `datetime.fromisoformat`, restricted to the
fixed-offset shape the source produces after its `ts.replace("Z",
"+00:00")` (the source comment at line 62 documents the timestamp shape
`YYYY-MM-DDTHH:MM:SSZ`).  Fields are validated as `datetime` does: year
at least `MINYEAR = 1`, month 1-12, day within the month's length under
the Gregorian leap-year rule, hour/minute/second in range.  An aware
datetime is modelled as seconds since the Unix epoch; `none` models the
`ValueError` Python raises on any other input — a malformed shape, the
empty string, or an out-of-range field such as a February 30th. -/
def fromisoformat (cs : List Char) : Option Int :=
  match cs with
  | [y1, y2, y3, y4, '-', m1, m2, '-', d1, d2, 'T',
     h1, h2, ':', n1, n2, ':', s1, s2, '+', '0', '0', ':', '0', '0'] =>
    if y1.isDigit ∧ y2.isDigit ∧ y3.isDigit ∧ y4.isDigit ∧ m1.isDigit ∧ m2.isDigit
        ∧ d1.isDigit ∧ d2.isDigit ∧ h1.isDigit ∧ h2.isDigit ∧ n1.isDigit ∧ n2.isDigit
        ∧ s1.isDigit ∧ s2.isDigit then
      let y := dval y1 * 1000 + dval y2 * 100 + dval y3 * 10 + dval y4
      let mo := dval m1 * 10 + dval m2
      let dy := dval d1 * 10 + dval d2
      let hh := dval h1 * 10 + dval h2
      let mi := dval n1 * 10 + dval n2
      let ss := dval s1 * 10 + dval s2
      if 1 ≤ y ∧ 1 ≤ mo ∧ mo ≤ 12 ∧ 1 ≤ dy ∧ dy ≤ daysInMonth y mo
          ∧ hh ≤ 23 ∧ mi ≤ 59 ∧ ss ≤ 59 then
        some (daysFromCivil y mo dy * 86400 + hh * 3600 + mi * 60 + ss)
      else none
    else none
  | _ => none

/-- Model of `parse_published_at` (src/app.py lines 61-63): replace `"Z"` by
`"+00:00"` and parse.  `none` models the `ValueError` Python raises —
notably when the `publishedAt` key was absent and `""` was passed in. -/
def parse_published_at (ts : String) : Option Int :=
  fromisoformat (replaceZ ts.data)

/-! ## Raw payload model (JSON objects of the item-listing response).
`none` models an absent key; `Option` nesting mirrors the `.get(...)`
defaulting in the source. -/

/-- One thumbnail variant object: `url`, `width`, `height` keys. -/
structure Thumb where
  url : Option String
  width : Option Int
  height : Option Int
deriving DecidableEq, Repr

/-- The `thumbnails` object with its quality-tier keys. -/
structure Thumbnails where
  maxres : Option Thumb
  standard : Option Thumb
  high : Option Thumb
  medium : Option Thumb
  defaultThumb : Option Thumb
deriving DecidableEq, Repr

/-- The `snippet` object of a raw item. -/
structure Snippet where
  title : Option String
  description : Option String
  channelTitle : Option String
  channelId : Option String
  publishedAt : Option String
  thumbnails : Option Thumbnails
deriving DecidableEq, Repr

/-- The `statistics` object; `viewCount` is a string-encoded integer. -/
structure Stats where
  viewCount : Option String
deriving DecidableEq, Repr

/-- The `contentDetails` object. -/
structure Details where
  duration : Option String
deriving DecidableEq, Repr

/-- One raw item of the listing payload. -/
structure RawItem where
  id : Option String
  snippet : Option Snippet
  statistics : Option Stats
  contentDetails : Option Details
deriving DecidableEq, Repr

/-- The empty-dict default of `item.get("snippet", \x7b\x7d)`. -/
def emptySnippet : Snippet := ⟨none, none, none, none, none, none⟩

/-- The empty-dict fallback `{}` at the end of the thumbnail chain. -/
def emptyThumb : Thumb := ⟨none, none, none⟩

/-- Thumbnail choice (src/app.py lines 119-126): the first present tier
of `maxres / standard / high / medium / default` (Python's `or` chain; a
present-but-empty object, which the platform never sends, is modelled as
present). -/
def bestThumb (thumbs : Option Thumbnails) : Thumb :=
  match thumbs with
  | none => emptyThumb
  | some t =>
    ((((t.maxres.orElse fun _ => t.standard).orElse fun _ => t.high).orElse
        fun _ => t.medium).orElse fun _ => t.defaultThumb).getD emptyThumb

/-! ## Normalized record (the dict appended at src/app.py lines 162-177) -/

structure Video where
  video_id : String
  title : String
  description : String
  channel_title : String
  channel_id : String
  published_at : Int
  view_count : Int
  duration_sec : Nat
  url : String
  thumbnail_url : Option String
  is_short : Bool
  is_vertical : Bool
deriving DecidableEq, Repr

/-- Python `int(s)` on a string: optional sign followed by ASCII digits
(surrounding whitespace and digit-group underscores, which the platform
never sends, are not modelled); `none` models the `ValueError`. -/
def pyIntStr (s : String) : Option Int :=
  match s.data with
  | '-' :: (c :: cs) =>
    if (c :: cs).all Char.isDigit then some (-(digitsVal (c :: cs) : Int)) else none
  | '+' :: (c :: cs) =>
    if (c :: cs).all Char.isDigit then some ((digitsVal (c :: cs) : Int)) else none
  | c :: cs =>
    if (c :: cs).all Char.isDigit then some ((digitsVal (c :: cs) : Int)) else none
  | [] => none

/-- Model of `int(stats.get("viewCount", 0))` under `try/except → 0`
(src/app.py lines 155-158). -/
def viewCountOf (stats : Stats) : Int :=
  match stats.viewCount with
  | none => 0
  | some s => (pyIntStr s).getD 0

/-- Python's `pat in text` substring test: `pat` occurs contiguously in
`text`. -/
def strContains (text pat : List Char) : Bool :=
  text.tails.any fun t => pat.isPrefixOf t

/-- The text heuristic (src/app.py lines 142-148): case-insensitive
search of `title + " " + description` for the Shorts hashtag variants
(`.lower()` modelled per character; the markers are ASCII). -/
def taggedShort (title description : String) : Bool :=
  let text := (title.data ++ ' ' :: description.data).map Char.toLower
  strContains text "#shorts".data || strContains text "#short ".data
    || strContains text " #short".data

/-- The per-item body of the aggregation loop (src/app.py lines 112-177).
`Except.error` models the uncaught `ValueError` from
`parse_published_at`; `Except.ok none` models `continue` (skipped item). -/
def processItem (item : RawItem) : Except String (Option Video) :=
  let snippet := item.snippet.getD emptySnippet
  let stats := item.statistics.getD ⟨none⟩
  let details := item.contentDetails.getD ⟨none⟩
  let t_obj := bestThumb snippet.thumbnails
  let thumb_w := t_obj.width.getD 0
  let thumb_h := t_obj.height.getD 0
  -- `aspect < 0.9` on positive dimensions, as an exact comparison
  let is_vertical := !(thumb_w == 0) && !(thumb_h == 0) && decide (10 * thumb_w < 9 * thumb_h)
  let duration_secs := parse_iso8601_duration (details.duration.getD "")
  let is_short := taggedShort (snippet.title.getD "") (snippet.description.getD "")
      || decide (duration_secs ≤ 75) || is_vertical
  match item.id with
  | none => Except.ok none
  | some video_id =>
    if video_id = "" then Except.ok none
    else
      match parse_published_at (snippet.publishedAt.getD "") with
      | none => Except.error "ValueError: invalid isoformat string"
      | some published_at =>
        Except.ok (some {
          video_id := video_id
          title := snippet.title.getD ""
          description := snippet.description.getD ""
          channel_title := snippet.channelTitle.getD ""
          channel_id := snippet.channelId.getD ""
          published_at := published_at
          view_count := viewCountOf stats
          duration_sec := duration_secs
          url := "https://www.youtube.com/watch?v=" ++ video_id
          thumbnail_url := t_obj.url
          is_short := is_short
          is_vertical := is_vertical })

/-- Model of `fetch_trending_videos` after a successful HTTP round-trip
(src/app.py lines 111-179): fold the loop body over the raw items,
collecting records in order; an uncaught exception aborts the whole
call. -/
def fetch_trending_videos (items : List RawItem) : Except String (List Video) :=
  match items with
  | [] => Except.ok []
  | item :: rest =>
    match processItem item with
    | Except.error e => Except.error e
    | Except.ok v? =>
      match fetch_trending_videos rest with
      | Except.error e => Except.error e
      | Except.ok vs =>
        match v? with
        | none => Except.ok vs
        | some v => Except.ok (v :: vs)

/-! ## Origin resolver (src/app.py lines 182-215) -/

/-- Channel lookup result: `snip.get("country")` and the logo url
(src/app.py lines 211-214). -/
structure ChanInfo where
  country : Option String
  logo_url : Option String
deriving DecidableEq, Repr

/-- Model of the distinct non-empty id extraction — the set comprehension over non-empty
ids.  Python's set iteration order is unspecified; it is modelled as
first-occurrence order, which no claim depends on. -/
def uniqueIds (channel_ids : List String) : List String :=
  (channel_ids.filter fun c => c ≠ "").dedup

/-- The slicing loop `for i in range(0, len(unique_ids), 50):
chunk = unique_ids[i : i + 50]` (src/app.py lines 190-191). -/
def chunk50 (l : List String) : List (List String) :=
  if l = [] then [] else l.take 50 :: chunk50 (l.drop 50)
termination_by l.length
decreasing_by
  rename_i h
  simp only [List.length_drop]
  have : 0 < l.length := List.length_pos.mpr h
  omega

/-- The sequence of batched API calls `fetch_channel_info` issues: one
per 50-element slice of the distinct non-empty ids (src/app.py lines
182-199; the per-call results are merged into one dict at line 211). -/
def fetch_channel_info_calls (channel_ids : List String) : List (List String) :=
  if channel_ids = [] then [] else chunk50 (uniqueIds channel_ids)

/-! ## Outlet filter (src/app.py lines 349-362) -/

/-- Lookup modelling the chained dict gets on channel_info and country: the registered country of
a channel, `none` when the channel is absent from the lookup result or
has no country. -/
def lookupCountry (channel_info : List (String × ChanInfo)) (cid : String) : Option String :=
  match channel_info.lookup cid with
  | none => none
  | some ci => ci.country

/-- Model of `filter_by_outlet` (src/app.py lines 349-362).  Note Python's
`None == "CA"` is `False` and `None != "CA"` is `True`, so channels with
no registered country pass the "Global (non-Canadian) outlets" filter. -/
def filter_by_outlet (videos : List Video) (channel_info : List (String × ChanInfo))
    (mode : String) : List Video :=
  if mode = "Canadian outlets only" then
    videos.filter fun v => lookupCountry channel_info v.channel_id == some "CA"
  else if mode = "Global (non-Canadian) outlets" then
    videos.filter fun v => !(lookupCountry channel_info v.channel_id == some "CA")
  else videos

/-! ## Derived views (src/app.py lines 517-528) -/

/-- Descending order on view counts: the sort key of
`list.sort(key=lambda v: v["view_count"], reverse=True)`. -/
def viewsDesc (a b : Video) : Prop := b.view_count ≤ a.view_count

instance : DecidableRel viewsDesc := fun _ _ => Int.decLe _ _

instance : IsTotal Video viewsDesc := ⟨fun a b => Int.le_total b.view_count a.view_count⟩

instance : IsTrans Video viewsDesc := ⟨fun _ _ _ h1 h2 => le_trans h2 h1⟩

/-- The list `regular = [v for v in videos if not v["is_short"]]` (line 518):
no sort is applied — the trending-chart order of the fetch is kept. -/
def regularOf (videos : List Video) : List Video :=
  videos.filter fun v => !v.is_short

/-- The list `shorts = [v for v in videos if v["is_short"]]` (line 519):
no sort is applied — the trending-chart order of the fetch is kept. -/
def shortsOf (videos : List Video) : List Video :=
  videos.filter fun v => v.is_short

/-- The list `recent` filtered by `(now_utc - v["published_at"]) <=
timedelta(hours=24)]` (line 522). -/
def recentOf (now : Int) (videos : List Video) : List Video :=
  videos.filter fun v => decide (now - v.published_at ≤ 86400)

/-- The list `recent_regular` after its in-place
`sort(key=..., reverse=True)` (lines 523, 527).  Python's stable
descending sort is modelled as a stable insertion sort. -/
def recentRegularOf (now : Int) (videos : List Video) : List Video :=
  List.insertionSort viewsDesc ((recentOf now videos).filter fun v => !v.is_short)

/-- The list `recent_shorts` after its in-place `sort(key=..., reverse=True)`
(lines 524, 528). -/
def recentShortsOf (now : Int) (videos : List Video) : List Video :=
  List.insertionSort viewsDesc ((recentOf now videos).filter fun v => v.is_short)

/-! ## Fetch cache (src/app.py lines 470-501) -/

/-- The cached snapshot held in `st.session_state["videos_data"]`. -/
structure Snapshot where
  videos : List Video
  channel_info : List (String × ChanInfo)
deriving DecidableEq, Repr

/-- The two session-state keys used by `main` (lines 472-474):
`videos_data` and `videos_last_fetch`. -/
structure AppState where
  videos_data : Option Snapshot
  videos_last_fetch : Option Int
deriving DecidableEq, Repr

/-- The list `channel_ids = [v["channel_id"] for v in videos if v["channel_id"]]`
(line 491). -/
def channelIdsOf (videos : List Video) : List String :=
  (videos.map fun v => v.channel_id).filter fun c => c ≠ ""

/-- The refresh block of `main` (src/app.py lines 488-497).  `fetchV`
models the outcome of `fetch_trending_videos(max_results=50)` (transport
errors from `raise_for_status` at line 108, or the aggregation itself,
become `Except.error`); `fetchC` likewise models `fetch_channel_info`.
The statements run in order and an exception aborts the block before the
two `st.session_state` assignments, leaving the previous state intact. -/
def doRefresh (fetchV : Except String (List Video))
    (fetchC : List String → Except String (List (String × ChanInfo)))
    (now : Int) (st : AppState) : Except String Unit × AppState :=
  match fetchV with
  | Except.error e => (Except.error e, st)
  | Except.ok videos =>
    match fetchC (channelIdsOf videos) with
    | Except.error e => (Except.error e, st)
    | Except.ok channel_info =>
      (Except.ok (),
        { videos_data := some { videos := videos, channel_info := channel_info }
          videos_last_fetch := some now })

/-! ## Auxiliary predicates and token builders used by the statements -/

/-- Optional unit component of a compact duration token: `some ds`
encodes the digit run `ds` followed by the unit letter `u`; `none`
encodes an absent unit. -/
def unitTok (ds : Option (List Char)) (u : Char) : List Char :=
  match ds with
  | none => []
  | some l => l ++ [u]

/-- A well-formed optional digit run: when present, non-empty and all
ASCII digits. -/
def goodDigits : Option (List Char) → Prop
  | none => True
  | some l => l ≠ [] ∧ ∀ c ∈ l, c.isDigit

/-- Encoded value of an optional digit run (an absent unit counts 0). -/
def unitVal : Option (List Char) → Nat
  | none => 0
  | some l => digitsVal l

/-- Truthiness test of `if not video_id: continue` — true when the raw `id` is present and
non-empty (Python truthiness of the id string). -/
def hasTruthyId (item : RawItem) : Bool :=
  match item.id with
  | none => false
  | some s => !(s == "")

/-- The item's publish timestamp parses, i.e. `parse_published_at` does
not raise on it. -/
def pubTsParses (item : RawItem) : Bool :=
  (parse_published_at ((item.snippet.getD emptySnippet).publishedAt.getD "")).isSome

/-! ## Concrete inputs for the witnesses and counterexamples -/

/-- An item with a truthy id whose snippet is entirely absent — in
particular its publish timestamp is absent. -/
def c1BadItem : RawItem :=
  { id := some "m1", snippet := none, statistics := some ⟨some "7"⟩, contentDetails := none }

/-- An item with a truthy id and a well-formed publish timestamp, but
with description, thumbnails, channel fields, view count and duration all
absent. -/
def c1GoodItem : RawItem :=
  { id := some "m2",
    snippet := some { title := none, description := none, channelTitle := none,
                      channelId := none, publishedAt := some "2025-11-13T20:42:01Z",
                      thumbnails := none },
    statistics := none,
    contentDetails := none }

/-- A regular (non-short) item with 5 views, listed first. -/
def c2LowItem : RawItem :=
  { id := some "r1",
    snippet := some { title := some "Story one", description := none, channelTitle := none,
                      channelId := some "chA", publishedAt := some "2025-11-13T08:00:00Z",
                      thumbnails := none },
    statistics := some ⟨some "5"⟩,
    contentDetails := some ⟨some "PT10M"⟩ }

/-- A regular (non-short) item with 10 views, listed second. -/
def c2HighItem : RawItem :=
  { id := some "r2",
    snippet := some { title := some "Story two", description := none, channelTitle := none,
                      channelId := some "chB", publishedAt := some "2025-11-13T09:00:00Z",
                      thumbnails := none },
    statistics := some ⟨some "10"⟩,
    contentDetails := some ⟨some "PT12M"⟩ }

/-- A record whose channel id has no entry in the lookup result. -/
def c6Video : Video :=
  { video_id := "x", title := "", description := "", channel_title := "",
    channel_id := "chX", published_at := 0, view_count := 0, duration_sec := 0,
    url := "", thumbnail_url := none, is_short := false, is_vertical := false }

/-- 120 distinct non-empty channel ids. -/
def c7Ids : List String := (List.range 120).map fun n => "c" ++ toString n

/-- An item whose duration token decodes to 30 seconds (≤ 75). -/
def c8ShortItem : RawItem :=
  { id := some "s1",
    snippet := some { title := some "Clip", description := none, channelTitle := none,
                      channelId := some "ch2", publishedAt := some "2025-11-13T20:42:01Z",
                      thumbnails := none },
    statistics := some ⟨some "500"⟩,
    contentDetails := some ⟨some "PT30S"⟩ }

/-- An item with no id at all: skipped by the aggregation loop. -/
def c10NoIdItem : RawItem :=
  { id := none, snippet := none, statistics := none, contentDetails := none }

/-- An ordinary item with a truthy id. -/
def c10GoodItem : RawItem :=
  { id := some "g1",
    snippet := some { title := some "News", description := none, channelTitle := none,
                      channelId := some "ch3", publishedAt := some "2025-11-13T20:42:01Z",
                      thumbnails := none },
    statistics := some ⟨some "42"⟩,
    contentDetails := some ⟨some "PT5M"⟩ }

/-! # Theorems -/

/-! ## Helper lemmas: rounding bounds -/

theorem roundHalfEvenTenths_bound_K (n : Int) :
    -1000 ≤ 2 * (10 * n - 1000 * roundHalfEvenTenths n 1000)
    ∧ 2 * (10 * n - 1000 * roundHalfEvenTenths n 1000) ≤ 1000 := by
  unfold roundHalfEvenTenths
  split
  · omega
  · split
    · omega
    · split <;> omega

theorem roundHalfEvenTenths_bound_M (n : Int) :
    -1000000 ≤ 2 * (10 * n - 1000000 * roundHalfEvenTenths n 1000000)
    ∧ 2 * (10 * n - 1000000 * roundHalfEvenTenths n 1000000) ≤ 1000000 := by
  unfold roundHalfEvenTenths
  split
  · omega
  · split
    · omega
    · split <;> omega

/-! ## C3: format_duration -/

/-- C3 (counterexample): the claim says `formatDuration` renders a
sentinel ("–" or "live/unknown"), never `"0:00"`, for inputs ≤ 0.  The
code has no sentinel branch: input 0 renders `"0:00"` and input -5 goes
through the same floor-division arithmetic, rendering `"-1:55"`. -/
theorem C3_counterexample :
    format_duration 0 = "0:00" ∧ format_duration (-5) = "-1:55" := by decide

/-- C3 (amended): `format_duration` applies no sentinel; every input in
`[0, 3599]` renders `M:SS` (so 0 renders `"0:00"`), and every input
≥ 3600 renders `H:MM:SS`, where the printed components reconstruct the
input. -/
theorem C3_amended_theorem (s : Int) (h0 : 0 ≤ s) :
    (s < 3600 → ∃ m sec, s = 60 * m + sec ∧ 0 ≤ sec ∧ sec < 60 ∧
      format_duration s = toString m ++ ":" ++ pad2 sec)
    ∧ (3600 ≤ s → ∃ hh m sec, s = 3600 * hh + 60 * m + sec ∧
      0 ≤ m ∧ m < 60 ∧ 0 ≤ sec ∧ sec < 60 ∧
      format_duration s = toString hh ++ ":" ++ pad2 m ++ ":" ++ pad2 sec) := by
  constructor
  · intro hlt
    refine ⟨s / 60, s % 60, by omega, by omega, by omega, ?_⟩
    rw [format_duration, if_neg (by omega : ¬ (3600 : Int) ≤ s)]
  · intro hge
    refine ⟨s / 3600, s % 3600 / 60, s % 60, by omega, by omega, by omega, by omega, by omega, ?_⟩
    rw [format_duration, if_pos hge]

/-- C3 (witness): instantiation at 3725 seconds. -/
theorem C3_witness :
    ∃ hh m sec, (3725 : Int) = 3600 * hh + 60 * m + sec ∧
      0 ≤ m ∧ m < 60 ∧ 0 ≤ sec ∧ sec < 60 ∧
      format_duration 3725 = toString hh ++ ":" ++ pad2 m ++ ":" ++ pad2 sec :=
  (C3_amended_theorem 3725 (by decide)).2 (by decide)

/-! ## C5: format_views -/

/-- C5 (counterexample): the claim says values ≥ 1,000,000,000 scale to
`B`; the code has no `B` tier and renders 1,500,000,000 as `"1500.0M"`,
not `"1.5B"`. -/
theorem C5_counterexample :
    format_views 1500000000 = "1500.0M" ∧ "1500.0M" ≠ "1.5B" := by decide

/-- C5 (amended): `format_views` scales to `K` at 1,000 and to `M` at
1,000,000 with one decimal digit (accurate to half a unit in the last
place); there is no `B` tier — every value ≥ 1,000,000, however large,
takes the `M` branch; below 1,000 the exact integer is rendered (plain
`str(n)`, which for values under 1,000 coincides with a grouped
rendering). -/
theorem C5_amended_theorem (n : Int) :
    (n < 1000 → format_views n = toString n)
    ∧ (1000 ≤ n → n < 1000000 → ∃ t, format_views n = decStr t ++ "K"
        ∧ -1000 ≤ 2 * (10 * n - 1000 * t) ∧ 2 * (10 * n - 1000 * t) ≤ 1000)
    ∧ (1000000 ≤ n → ∃ t, format_views n = decStr t ++ "M"
        ∧ -1000000 ≤ 2 * (10 * n - 1000000 * t) ∧ 2 * (10 * n - 1000000 * t) ≤ 1000000) := by
  refine ⟨fun h => ?_, fun h1 h2 => ?_, fun h => ?_⟩
  · rw [format_views, if_neg (by omega : ¬ (1000000 : Int) ≤ n),
      if_neg (by omega : ¬ (1000 : Int) ≤ n)]
  · exact ⟨roundHalfEvenTenths n 1000,
      by rw [format_views, if_neg (by omega : ¬ (1000000 : Int) ≤ n), if_pos h1],
      (roundHalfEvenTenths_bound_K n).1, (roundHalfEvenTenths_bound_K n).2⟩
  · exact ⟨roundHalfEvenTenths n 1000000,
      by rw [format_views, if_pos h],
      (roundHalfEvenTenths_bound_M n).1, (roundHalfEvenTenths_bound_M n).2⟩

/-- C5 (witness): instantiation at 1,500,000 (the spec's concrete
scenario; `format_views 1500000` indeed renders `"1.5M"`). -/
theorem C5_witness :
    ∃ t, format_views 1500000 = decStr t ++ "M"
      ∧ -1000000 ≤ 2 * (10 * 1500000 - 1000000 * t)
      ∧ 2 * (10 * 1500000 - 1000000 * t) ≤ 1000000 :=
  (C5_amended_theorem 1500000).2.2 (by decide)

/-! ## C6: origin filter -/

/-- C6 (confirmed): the "Canadian outlets only" mode keeps exactly the
records whose channel country resolves to `"CA"`, and the
"Global (non-Canadian) outlets" mode keeps every record whose channel
country is absent (including channels missing from the lookup result
entirely). -/
theorem C6_theorem (videos : List Video) (channel_info : List (String × ChanInfo)) :
    (∀ v, v ∈ filter_by_outlet videos channel_info "Canadian outlets only"
        ↔ v ∈ videos ∧ lookupCountry channel_info v.channel_id = some "CA")
    ∧ (∀ v ∈ videos, lookupCountry channel_info v.channel_id = none →
        v ∈ filter_by_outlet videos channel_info "Global (non-Canadian) outlets") := by
  constructor
  · intro v
    have e : filter_by_outlet videos channel_info "Canadian outlets only"
        = videos.filter (fun v => lookupCountry channel_info v.channel_id == some "CA") := rfl
    rw [e, List.mem_filter]
    simp
  · intro v hv hc
    have e : filter_by_outlet videos channel_info "Global (non-Canadian) outlets"
        = videos.filter (fun v => !(lookupCountry channel_info v.channel_id == some "CA")) := rfl
    rw [e, List.mem_filter]
    exact ⟨hv, by simp [hc]⟩

/-- C6 (witness): a record whose channel is absent from an empty lookup
result passes the foreign-outlets filter. -/
theorem C6_witness :
    c6Video ∈ filter_by_outlet [c6Video] [] "Global (non-Canadian) outlets" :=
  (C6_theorem [c6Video] []).2 c6Video (List.mem_singleton.mpr rfl) rfl

/-! ## C9: cache atomicity on refresh failure -/

/-- C9 (confirmed): when either the item listing or the channel lookup
fails with a transport error, the refresh block propagates the error and
the session state — the cached snapshot and its fetch timestamp — is
left exactly as it was. -/
theorem C9_theorem (fetchV : Except String (List Video))
    (fetchC : List String → Except String (List (String × ChanInfo)))
    (now : Int) (st : AppState) (e : String)
    (h : fetchV = Except.error e ∨
      ∃ videos, fetchV = Except.ok videos ∧ fetchC (channelIdsOf videos) = Except.error e) :
    doRefresh fetchV fetchC now st = (Except.error e, st) := by
  rcases h with rfl | ⟨videos, rfl, h2⟩
  · rfl
  · show (match fetchC (channelIdsOf videos) with
      | Except.error e => (Except.error e, st)
      | Except.ok channel_info =>
        (Except.ok (),
          { videos_data := some { videos := videos, channel_info := channel_info }
            videos_last_fetch := some now })) = (Except.error e, st)
    rw [h2]

/-- C9 (witness): a failing item listing leaves an empty cache state
untouched and surfaces the error. -/
theorem C9_witness :
    doRefresh (Except.error "HTTPError: 500 Server Error") (fun _ => Except.ok []) 1763066521
        { videos_data := none, videos_last_fetch := none }
      = (Except.error "HTTPError: 500 Server Error",
         { videos_data := none, videos_last_fetch := none }) :=
  C9_theorem _ _ 1763066521 _ "HTTPError: 500 Server Error" (Or.inl rfl)

/-! ## Helper lemmas: the duration regex model -/

theorem takeDigits_append (ds : List Char) (h : ∀ c ∈ ds, c.isDigit)
    (rest : List Char)
    (hr : rest = [] ∨ ∃ c r, rest = c :: r ∧ c.isDigit = false) :
    takeDigits (ds ++ rest) = (ds, rest) := by
  induction ds with
  | nil =>
    simp only [List.nil_append]
    rcases hr with rfl | ⟨c, r, rfl, hc⟩
    · rfl
    · simp [takeDigits, hc]
  | cons d ds ih =>
    have hd : d.isDigit := h d (by simp)
    simp only [List.cons_append, takeDigits, hd, if_true, List.append_eq]
    rw [ih (fun c hc => h c (by simp [hc]))]

theorem takeUnit_hit (ds : List Char) (u : Char) (rest : List Char)
    (hne : ds ≠ []) (h : ∀ c ∈ ds, c.isDigit) (hu : u.isDigit = false) :
    takeUnit (ds ++ u :: rest) u = (digitsVal ds, rest) := by
  simp only [takeUnit]
  rw [takeDigits_append ds h (u :: rest) (Or.inr ⟨u, rest, rfl, hu⟩)]
  rcases ds with _ | ⟨d, ds⟩
  · exact absurd rfl hne
  · simp

theorem takeUnit_skip (ds : List Char) (u' : Char) (rest : List Char) (u : Char)
    (h : ∀ c ∈ ds, c.isDigit) (hu' : u'.isDigit = false) (hne : u' ≠ u) :
    takeUnit (ds ++ u' :: rest) u = (0, ds ++ u' :: rest) := by
  simp only [takeUnit]
  rw [takeDigits_append ds h (u' :: rest) (Or.inr ⟨u', rest, rfl, hu'⟩)]
  rcases ds with _ | ⟨d, ds⟩
  · rfl
  · simp [hne]

theorem takeUnit_MS_miss (md sd : Option (List Char))
    (h2 : goodDigits md) (h3 : goodDigits sd) :
    takeUnit (unitTok md 'M' ++ unitTok sd 'S') 'H'
      = (0, unitTok md 'M' ++ unitTok sd 'S') := by
  rcases md with _ | m
  · rcases sd with _ | s
    · rfl
    · simpa [unitTok] using takeUnit_skip s 'S' [] 'H' h3.2 (by decide) (by decide)
  · simpa [unitTok, List.append_assoc] using
      takeUnit_skip m 'M' (unitTok sd 'S') 'H' h2.2 (by decide) (by decide)

theorem takeUnit_S_miss (sd : Option (List Char)) (h3 : goodDigits sd) :
    takeUnit (unitTok sd 'S') 'M' = (0, unitTok sd 'S') := by
  rcases sd with _ | s
  · rfl
  · simpa [unitTok] using takeUnit_skip s 'S' [] 'M' h3.2 (by decide) (by decide)

theorem parseHMS_token (hd md sd : Option (List Char))
    (h1 : goodDigits hd) (h2 : goodDigits md) (h3 : goodDigits sd) :
    parseHMS (unitTok hd 'H' ++ unitTok md 'M' ++ unitTok sd 'S')
      = unitVal hd * 3600 + unitVal md * 60 + unitVal sd := by
  have stageH : takeUnit (unitTok hd 'H' ++ unitTok md 'M' ++ unitTok sd 'S') 'H'
      = (unitVal hd, unitTok md 'M' ++ unitTok sd 'S') := by
    rcases hd with _ | hds
    · simpa [unitTok, unitVal] using takeUnit_MS_miss md sd h2 h3
    · simpa [unitTok, unitVal, List.append_assoc] using
        takeUnit_hit hds 'H' (unitTok md 'M' ++ unitTok sd 'S') h1.1 h1.2 (by decide)
  have stageM : takeUnit (unitTok md 'M' ++ unitTok sd 'S') 'M'
      = (unitVal md, unitTok sd 'S') := by
    rcases md with _ | mds
    · simpa [unitTok, unitVal] using takeUnit_S_miss sd h3
    · simpa [unitTok, unitVal, List.append_assoc] using
        takeUnit_hit mds 'M' (unitTok sd 'S') h2.1 h2.2 (by decide)
  have stageS : takeUnit (unitTok sd 'S') 'S' = (unitVal sd, []) := by
    rcases sd with _ | sds
    · rfl
    · simpa [unitTok, unitVal] using takeUnit_hit sds 'S' [] h3.1 h3.2 (by decide)
  simp only [parseHMS, stageH, stageM, stageS]

/-! ## C4: parse_iso8601_duration -/

/-- C4 (counterexample): the claim says a token with a day component
(one day, two hours) decodes to `1*86400 + 2*3600 = 93600` seconds.  The
ISO-8601 encoding of that duration is `P1DT2H`, which does not start
with `PT`, so the code returns 0. -/
theorem C4_counterexample :
    parse_iso8601_duration "P1DT2H" = 0 ∧ (1 * 86400 + 2 * 3600 : Nat) ≠ 0 := by decide

/-- C4 (amended): `parse_iso8601_duration` decodes every token built
from hour/minute/second units with any subset of the three units present
(prefix `PT`), to `hours*3600 + minutes*60 + seconds`; any input not
beginning with the characters `P`,`T` — which includes the empty string
and every token carrying a day component — yields 0.  The day breakdown
the claim requires is not supported. -/
theorem C4_amended_theorem (hd md sd : Option (List Char)) (d : String)
    (h1 : goodDigits hd) (h2 : goodDigits md) (h3 : goodDigits sd)
    (hn : ∀ rest, d.data ≠ 'P' :: 'T' :: rest) :
    parse_iso8601_duration
        (String.mk ('P' :: 'T' :: (unitTok hd 'H' ++ unitTok md 'M' ++ unitTok sd 'S')))
      = unitVal hd * 3600 + unitVal md * 60 + unitVal sd
    ∧ parse_iso8601_duration d = 0 := by
  constructor
  · exact parseHMS_token hd md sd h1 h2 h3
  · unfold parse_iso8601_duration
    split
    · rename_i rest heq
      exact absurd heq (hn rest)
    · rfl

/-- C4 (witness): the token `PT1H2M5S` decodes to 3725 (the spec's
concrete scenario), and the day-component token `P1DT2H` yields 0. -/
theorem C4_witness :
    parse_iso8601_duration
        (String.mk ('P' :: 'T' :: (unitTok (some ['1']) 'H' ++ unitTok (some ['2']) 'M'
          ++ unitTok (some ['5']) 'S')))
      = unitVal (some ['1']) * 3600 + unitVal (some ['2']) * 60 + unitVal (some ['5'])
    ∧ parse_iso8601_duration "P1DT2H" = 0 :=
  C4_amended_theorem (some ['1']) (some ['2']) (some ['5']) "P1DT2H"
    ⟨by decide, by decide⟩ ⟨by decide, by decide⟩ ⟨by decide, by decide⟩
    (fun rest h => by
      have h' : (['P', '1', 'D', 'T', '2', 'H'] : List Char) = 'P' :: 'T' :: rest := h
      have hc : ('1' : Char) = 'T' := (List.cons.inj (List.cons.inj h').2).1
      exact absurd hc (by decide))

/-! ## Helper lemmas: aggregation-loop inversion -/

/-- A record produced by the loop body has the (non-empty) raw id as its
key, and carries `is_short = true` whenever its duration is ≤ 75. -/
theorem processItem_ok_some (item : RawItem) (v : Video)
    (h : processItem item = Except.ok (some v)) :
    v.video_id ≠ "" ∧ (v.duration_sec ≤ 75 → v.is_short = true) := by
  simp only [processItem] at h
  split at h
  · exact absurd h (by simp)
  rename_i video_id heq
  split at h
  · exact absurd h (by simp)
  rename_i hne
  split at h
  · exact absurd h (by simp)
  rename_i published_at hp
  injection h with h1
  injection h1 with h2
  obtain rfl := h2.symm
  refine ⟨hne, fun hd => ?_⟩
  simp only [Bool.or_eq_true, decide_eq_true_eq]
  exact Or.inl (Or.inr hd)

/-- An item whose truthy id implies a parsing publish timestamp is
processed without error: it yields a record exactly when the id is
truthy and is skipped otherwise. -/
theorem processItem_total (item : RawItem)
    (h : hasTruthyId item = true → pubTsParses item = true) :
    (hasTruthyId item = true ∧ ∃ v, processItem item = Except.ok (some v))
    ∨ (hasTruthyId item = false ∧ processItem item = Except.ok none) := by
  rcases hid : item.id with _ | vid
  · right
    refine ⟨by simp [hasTruthyId, hid], ?_⟩
    simp only [processItem, hid]
  · by_cases he : vid = ""
    · right
      subst he
      refine ⟨by simp [hasTruthyId, hid], ?_⟩
      simp [processItem, hid]
    · left
      have htid : hasTruthyId item = true := by simp [hasTruthyId, hid, he]
      refine ⟨htid, ?_⟩
      have hp := h htid
      unfold pubTsParses at hp
      rcases hpp : parse_published_at ((item.snippet.getD emptySnippet).publishedAt.getD "")
        with _ | pa
      · rw [hpp] at hp
        simp at hp
      · rcases hres : processItem item with e | v?
        · exfalso
          simp only [processItem, hid, if_neg he, hpp] at hres
          simp at hres
        · rcases v? with _ | v
          · exfalso
            simp only [processItem, hid, if_neg he, hpp] at hres
            simp at hres
          · exact ⟨v, rfl⟩

/-- Successful aggregation yields at most one record per raw item, each
originating from a successful loop-body run. -/
theorem fetch_mem (items : List RawItem) (vids : List Video)
    (h : fetch_trending_videos items = Except.ok vids) :
    vids.length ≤ items.length
    ∧ ∀ v ∈ vids, ∃ item ∈ items, processItem item = Except.ok (some v) := by
  induction items generalizing vids with
  | nil =>
    simp only [fetch_trending_videos] at h
    injection h with h'
    subst h'
    simp
  | cons item rest ih =>
    simp only [fetch_trending_videos] at h
    split at h
    · exact absurd h (by simp)
    rename_i v? hp
    split at h
    · exact absurd h (by simp)
    rename_i vs hr
    obtain ⟨ihl, ihm⟩ := ih vs hr
    split at h
    · injection h with h'
      subst h'
      refine ⟨by simp only [List.length_cons]; omega, fun v hv => ?_⟩
      obtain ⟨it, hit, hpi⟩ := ihm v hv
      exact ⟨it, List.mem_cons_of_mem _ hit, hpi⟩
    · rename_i v0
      injection h with h'
      subst h'
      refine ⟨by simp only [List.length_cons]; omega, fun v hv => ?_⟩
      rcases List.mem_cons.mp hv with rfl | hmem
      · exact ⟨item, List.mem_cons_self _ _, hp⟩
      · obtain ⟨it, hit, hpi⟩ := ihm v hmem
        exact ⟨it, List.mem_cons_of_mem _ hit, hpi⟩

/-- Items satisfying the timestamp precondition aggregate without error,
yielding one record per truthy-id item. -/
theorem fetch_ok_of_items (items : List RawItem)
    (h : ∀ item ∈ items, hasTruthyId item = true → pubTsParses item = true) :
    ∃ vids, fetch_trending_videos items = Except.ok vids
      ∧ vids.length = (items.filter hasTruthyId).length := by
  induction items with
  | nil => exact ⟨[], rfl, rfl⟩
  | cons item rest ih =>
    obtain ⟨vids, hv, hlen⟩ := ih fun i hi => h i (List.mem_cons_of_mem _ hi)
    rcases processItem_total item (h item (List.mem_cons_self _ _)) with ⟨ht, v, hp⟩ | ⟨ht, hp⟩
    · refine ⟨v :: vids, ?_, ?_⟩
      · simp only [fetch_trending_videos, hp, hv]
      · simp [List.filter_cons, ht, hlen]
    · refine ⟨vids, ?_, ?_⟩
      · simp only [fetch_trending_videos, hp, hv]
      · simp [List.filter_cons, ht, hlen]

/-! ## C1: defensive field extraction -/

/-- C1 (counterexample): the claim says a missing publish timestamp is
resolved to its default, never an error.  An item with a truthy id whose
snippet (hence `publishedAt`) is absent makes the aggregation raise:
`parse_published_at("")` throws `ValueError`, aborting the fetch. -/
theorem C1_counterexample :
    fetch_trending_videos [c1BadItem]
      = Except.error "ValueError: invalid isoformat string" := rfl

/-- C1 (amended): for every raw item whose publish timestamp parses
whenever its id is truthy, aggregation never errors: missing
description, thumbnail, channel fields, view count and duration are all
resolved to their defaults, every truthy-id item yields a record, and
the rest are skipped.  The publish timestamp is the one exception to the
defensive-defaulting rule: when it is absent or malformed on a truthy-id
item, `parse_published_at` raises and the whole fetch fails. -/
theorem C1_amended_theorem (items : List RawItem)
    (h : ∀ item ∈ items, hasTruthyId item = true → pubTsParses item = true) :
    ∃ vids, fetch_trending_videos items = Except.ok vids
      ∧ vids.length = (items.filter hasTruthyId).length :=
  fetch_ok_of_items items h

/-- C1 (witness): an item missing every optional field except id and
timestamp aggregates without error into exactly one record. -/
theorem C1_witness :
    ∃ vids, fetch_trending_videos [c1GoodItem] = Except.ok vids
      ∧ vids.length = ([c1GoodItem].filter hasTruthyId).length :=
  C1_amended_theorem [c1GoodItem]
    (fun item hm _ => by rcases List.mem_singleton.mp hm with rfl; rfl)

/-! ## C8: duration signal is sufficient for the classifier -/

/-- C8 (confirmed): every record of a successful fetch whose decoded
duration is at most 75 seconds is classified short-form, regardless of
the text and thumbnail-geometry signals (the three signals are
OR-combined). -/
theorem C8_theorem (items : List RawItem) (vids : List Video)
    (h : fetch_trending_videos items = Except.ok vids)
    (v : Video) (hv : v ∈ vids) (hd : v.duration_sec ≤ 75) :
    v.is_short = true := by
  obtain ⟨-, hmem⟩ := fetch_mem items vids h
  obtain ⟨it, -, hp⟩ := hmem v hv
  exact (processItem_ok_some it v hp).2 hd

/-- C8 (witness): a 30-second item with no Shorts tag and no vertical
thumbnail is still classified short-form. -/
theorem C8_witness :
    ∃ v, fetch_trending_videos [c8ShortItem] = Except.ok [v] ∧ v.is_short = true := by
  refine ⟨_, rfl, ?_⟩
  exact C8_theorem [c8ShortItem] _ rfl _ (List.mem_singleton.mpr rfl) (by decide)

/-! ## C10: records always carry a non-empty id -/

/-- C10 (confirmed): every record of a successful fetch has a non-empty
id — items with a missing or empty raw id are skipped, producing no
record, so the record set can be shorter than the raw payload. -/
theorem C10_theorem (items : List RawItem) (vids : List Video)
    (h : fetch_trending_videos items = Except.ok vids) :
    (∀ v ∈ vids, v.video_id ≠ "") ∧ vids.length ≤ items.length := by
  obtain ⟨hlen, hmem⟩ := fetch_mem items vids h
  refine ⟨fun v hv => ?_, hlen⟩
  obtain ⟨it, -, hp⟩ := hmem v hv
  exact (processItem_ok_some it v hp).1

/-- C10 (witness): a payload of one id-less item and one ordinary item
yields a single record whose id is non-empty. -/
theorem C10_witness :
    ∃ vids, fetch_trending_videos [c10NoIdItem, c10GoodItem] = Except.ok vids
      ∧ (∀ v ∈ vids, v.video_id ≠ "") ∧ vids.length ≤ [c10NoIdItem, c10GoodItem].length :=
  ⟨_, rfl, C10_theorem [c10NoIdItem, c10GoodItem] _ rfl⟩

/-! ## C2: view ordering -/

/-- C2 (counterexample): the claim says the Regular view is returned
sorted by view count descending.  A fetch whose trending chart lists a
5-view regular video before a 10-view one yields a Regular view in that
same chart order, which is not descending by views. -/
theorem C2_counterexample :
    ∃ vids, fetch_trending_videos [c2LowItem, c2HighItem] = Except.ok vids
      ∧ ¬ List.Sorted viewsDesc (regularOf vids) := by
  refine ⟨_, rfl, ?_⟩
  decide

/-- C2 (amended): the Regular and Short-form views are order-preserving
sublists of the fetched record set (the trending-chart order; no sort is
applied to them); only the recency-windowed regular and short-form
views are sorted by view count descending. -/
theorem C2_amended_theorem (videos : List Video) (now : Int) :
    List.Sorted viewsDesc (recentRegularOf now videos)
    ∧ List.Sorted viewsDesc (recentShortsOf now videos)
    ∧ List.Sublist (regularOf videos) videos
    ∧ List.Sublist (shortsOf videos) videos :=
  ⟨List.sorted_insertionSort viewsDesc _, List.sorted_insertionSort viewsDesc _,
    List.filter_sublist _, List.filter_sublist _⟩

/-! ## Helper lemmas: batching -/

theorem chunk50_eq (l : List String) :
    chunk50 l = if l = [] then [] else l.take 50 :: chunk50 (l.drop 50) := by
  rw [chunk50]

theorem chunk50_flatten (l : List String) : (chunk50 l).flatten = l := by
  generalize hn : l.length = n
  induction n using Nat.strong_induction_on generalizing l with
  | _ n ih =>
    rw [chunk50_eq]
    split
    · rename_i h
      simp [h]
    · rename_i h
      have hpos : 0 < l.length := List.length_pos.mpr h
      rw [List.flatten_cons,
        ih (l.drop 50).length (by simp only [List.length_drop]; omega) (l.drop 50) rfl]
      exact List.take_append_drop 50 l

theorem chunk50_length (l : List String) : (chunk50 l).length = (l.length + 49) / 50 := by
  generalize hn : l.length = n
  induction n using Nat.strong_induction_on generalizing l with
  | _ n ih =>
    rw [chunk50_eq]
    split
    · rename_i h
      subst hn
      rw [h]
      rfl
    · rename_i h
      have hpos : 0 < l.length := List.length_pos.mpr h
      rw [List.length_cons,
        ih (l.drop 50).length (by simp only [List.length_drop]; omega) (l.drop 50) rfl]
      simp only [List.length_drop]
      omega

theorem chunk50_mem (l : List String) :
    ∀ c ∈ chunk50 l, c.length ≤ 50 ∧ c ≠ [] := by
  generalize hn : l.length = n
  induction n using Nat.strong_induction_on generalizing l with
  | _ n ih =>
    intro c hc
    rw [chunk50_eq] at hc
    split at hc
    · simp at hc
    · rename_i h
      have hpos : 0 < l.length := List.length_pos.mpr h
      rcases List.mem_cons.mp hc with rfl | hmem
      · have hlen : (l.take 50).length = min 50 l.length := List.length_take 50 l
        constructor
        · omega
        · intro he
          rw [he] at hlen
          simp at hlen
          omega
      · exact ih (l.drop 50).length (by simp only [List.length_drop]; omega)
          (l.drop 50) rfl c hmem

theorem chunk50_sizes_120 (l : List String) (h : l.length = 120) :
    (chunk50 l).map List.length = [50, 50, 20] := by
  have h1 : l ≠ [] := by
    intro e
    rw [e] at h
    simp at h
  have h2 : l.drop 50 ≠ [] := by
    intro e
    have := congrArg List.length e
    simp [List.length_drop, h] at this
  have h3 : (l.drop 50).drop 50 ≠ [] := by
    intro e
    have := congrArg List.length e
    simp [List.length_drop, h] at this
  have h4 : ((l.drop 50).drop 50).drop 50 = [] := by
    have : (((l.drop 50).drop 50).drop 50).length = 0 := by
      simp [List.length_drop, h]
    exact List.length_eq_zero.mp this
  rw [chunk50_eq, if_neg h1, chunk50_eq, if_neg h2, chunk50_eq, if_neg h3,
    chunk50_eq, if_pos h4]
  simp [List.length_take, List.length_drop, h]

/-! ## C7: batched channel lookups -/

/-- C7 (confirmed): `fetch_channel_info` partitions the distinct
non-empty ids into slices of at most 50, issues one lookup call per
slice — `ceil(n / 50)` calls in total, whose id lists concatenate back
to the distinct-id list — and in particular 120 distinct ids produce
exactly 3 calls carrying 50, 50 and 20 ids. -/
theorem C7_theorem (channel_ids : List String) :
    (∀ c ∈ fetch_channel_info_calls channel_ids, c.length ≤ 50 ∧ c ≠ [])
    ∧ (fetch_channel_info_calls channel_ids).flatten = uniqueIds channel_ids
    ∧ (fetch_channel_info_calls channel_ids).length = ((uniqueIds channel_ids).length + 49) / 50
    ∧ ((uniqueIds channel_ids).length = 120 →
        (fetch_channel_info_calls channel_ids).map List.length = [50, 50, 20]) := by
  unfold fetch_channel_info_calls
  split
  · rename_i h
    subst h
    refine ⟨by simp, by simp [uniqueIds], by simp [uniqueIds], fun h120 => ?_⟩
    simp [uniqueIds] at h120
  · exact ⟨chunk50_mem _, chunk50_flatten _, chunk50_length _, chunk50_sizes_120 _⟩

set_option maxRecDepth 20000 in
/-- C7 (witness): 120 distinct ids are partitioned into calls of
50, 50 and 20. -/
theorem C7_witness :
    (fetch_channel_info_calls c7Ids).map List.length = [50, 50, 20] :=
  (C7_theorem c7Ids).2.2.2 (by decide)

end TrendingDashboard
